import Mathlib

/-!
Verification of the PAGASA typhoon-bulletin extraction pipeline.

The Python sources (`typhoon_extraction_improved.py`, `typhoon_extraction_ml.py`,
`typhoon_extraction_ml_v2.py`) are shallowly embedded below.  Text is
represented as `List Char`; Python regular-expression calls are embedded
through a small backtracking matcher (`Re` / `mrun`) whose alternatives are
produced in Python's backtracking priority order (all patterns in the source
are used with `re.IGNORECASE`, and every `.` occurs under `re.DOTALL`).
-/

namespace Pagasa

/-- Text is a list of characters; `S` injects Lean string literals. -/
abbrev Str := List Char

def S (s : String) : Str := s.data

/-- Python's `str.lower` (character-wise; exact on the ASCII bulletins). -/
def pyLower (s : Str) : Str := s.map Char.toLower

/-- Python `\s` / `str.strip` whitespace set. -/
def isPySpace (c : Char) : Bool :=
  c = ' ' || c = '\t' || c = '\n' || c = '\r' || c = '\x0b' || c = '\x0c'

/-- Python's `str.strip()`. -/
def pyStrip (s : Str) : Str :=
  ((s.dropWhile isPySpace).reverse.dropWhile isPySpace).reverse

/-- Is `n` a prefix of `h` (Boolean)? -/
def isPrefixB : Str → Str → Bool
  | [], _ => true
  | _ :: _, [] => false
  | a :: as, b :: bs => a = b && isPrefixB as bs

/-- Python's substring test `n in h` (Boolean contiguous-substring check). -/
def occursB (n : Str) : Str → Bool
  | [] => n.isEmpty
  | c :: rest => isPrefixB n (c :: rest) || occursB n rest

/-- `re.sub(r'\s+', ' ', text)`: collapse each whitespace run to one space.
The flag records whether the previous character was whitespace. -/
def cleanAux : Bool → Str → Str
  | _, [] => []
  | prevSpace, c :: rest =>
    if isPySpace c then
      (if prevSpace then [] else [' ']) ++ cleanAux true rest
    else c :: cleanAux false rest

def cleanText (s : Str) : Str := cleanAux false s

/-- `re.split` on a single-character class such as `[,;]`. -/
def splitCharsAux (p : Char → Bool) : Str → Str → List Str
  | acc, [] => [acc.reverse]
  | acc, c :: rest =>
    if p c then acc.reverse :: splitCharsAux p [] rest
    else splitCharsAux p (c :: acc) rest

def splitChars (p : Char → Bool) (s : Str) : List Str := splitCharsAux p [] s

/-- `sep.join(xs)`. -/
def joinSep (sep : Str) : List Str → Str
  | [] => []
  | [x] => x
  | x :: y :: rest => x ++ sep ++ joinSep sep (y :: rest)

/-- The contiguous slice `s[a:b]` of Python. -/
def sliceL (s : Str) (a b : Nat) : Str := (s.drop a).take (b - a)

/-- Insertion-ordered association-list lookup (Python `dict` access). -/
def alookup {α β : Type} [DecidableEq α] : List (α × β) → α → Option β
  | [], _ => none
  | (a, b) :: t, k => if a = k then some b else alookup t k

/-- Python `d[k] = v`: update the (unique) existing binding, else append. -/
def aset {α β : Type} [DecidableEq α] : List (α × β) → α → β → List (α × β)
  | [], k, v => [(k, v)]
  | (a, b) :: t, k, v => if a = k then (k, v) :: t else (a, b) :: aset t k v

/-- Python `k in d`. -/
def amem {α β : Type} [DecidableEq α] (l : List (α × β)) (k : α) : Bool :=
  (alookup l k).isSome

/-- Numeric value of a digit string (Python `int` on `\d` captures). -/
def natOfDigits (s : Str) : Nat :=
  s.foldl (fun a c => a * 10 + (c.toNat - '0'.toNat)) 0

/-! ## The regular-expression matcher

`Re` covers exactly the constructs appearing in the source's patterns:
literals, one-character classes, sequencing, ordered alternation, greedy and
lazy star, greedy option, a single capture group, and `$`. -/

inductive Re where
  | lit : Str → Re
  | cls : (Char → Bool) → Re
  | seq : Re → Re → Re
  | alt : Re → Re → Re
  | starG : Re → Re
  | starL : Re → Re
  | opt : Re → Re
  | grp : Re → Re
  | eos : Re

/-- Case-insensitive literal match at index `i`, returning the end index. -/
def litMatchCI : Str → Str → Nat → Option Nat
  | [], _, i => some i
  | c :: cs, s, i =>
    match s[i]? with
    | some d => if c.toLower = d.toLower then litMatchCI cs s (i + 1) else none
    | none => none

def mergeCap : Option (Nat × Nat) → Option (Nat × Nat) → Option (Nat × Nat)
  | some a, _ => some a
  | none, b => b

/-- All ways `re` can match starting at `i`, as `(end index, group-1 span)`
pairs in backtracking priority order (first = Python's preferred match).
The fuel argument only forces termination; `fuelFor` below always suffices
because each starred sub-pattern of the source consumes at least one
character per iteration (enforced by the `i < a.1` filters). -/
def mrun : Nat → Re → Str → Nat → List (Nat × Option (Nat × Nat))
  | 0, _, _, _ => []
  | Nat.succ f, re, s, i =>
    match re with
    | Re.lit cs =>
      match litMatchCI cs s i with
      | some j => [(j, none)]
      | none => []
    | Re.cls p =>
      match s[i]? with
      | some c => if p c then [(i + 1, none)] else []
      | none => []
    | Re.seq r1 r2 =>
      (mrun f r1 s i).flatMap (fun a =>
        (mrun f r2 s a.1).map (fun b => (b.1, mergeCap a.2 b.2)))
    | Re.alt r1 r2 => mrun f r1 s i ++ mrun f r2 s i
    | Re.starG r =>
      (((mrun f r s i).filter (fun a => i < a.1)).flatMap (fun a =>
        (mrun f (Re.starG r) s a.1).map (fun b => (b.1, mergeCap a.2 b.2))))
        ++ [(i, none)]
    | Re.starL r =>
      (i, none) :: ((mrun f r s i).filter (fun a => i < a.1)).flatMap (fun a =>
        (mrun f (Re.starL r) s a.1).map (fun b => (b.1, mergeCap a.2 b.2)))
    | Re.opt r => mrun f r s i ++ [(i, none)]
    | Re.grp r => (mrun f r s i).map (fun a => (a.1, some (i, a.1)))
    | Re.eos =>
      if i = s.length then [(i, none)]
      else if i + 1 = s.length ∧ s[i]? = some '\n' then [(i, none)]
      else []

def reSize : Re → Nat
  | Re.lit cs => cs.length + 1
  | Re.cls _ => 1
  | Re.seq a b => reSize a + reSize b + 1
  | Re.alt a b => reSize a + reSize b + 1
  | Re.starG r => reSize r + 2
  | Re.starL r => reSize r + 2
  | Re.opt r => reSize r + 1
  | Re.grp r => reSize r + 1
  | Re.eos => 1

def fuelFor (re : Re) (s : Str) : Nat := (s.length + 2) * (reSize re + 2) + 1

/-- Python's preferred match of `re` at exactly position `i`. -/
def matchAt (re : Re) (s : Str) (i : Nat) : Option (Nat × Option (Nat × Nat)) :=
  (mrun (fuelFor re s) re s i).head?

/-- `re.search` scanning from `i`: leftmost match as `(start, end, group 1)`. -/
def searchFromAux : Nat → Re → Str → Nat → Option (Nat × Nat × Option (Nat × Nat))
  | 0, _, _, _ => none
  | Nat.succ f, re, s, i =>
    match matchAt re s i with
    | some a => some (i, a.1, a.2)
    | none => if i < s.length then searchFromAux f re s (i + 1) else none

def reSearch (re : Re) (s : Str) : Option (Nat × Nat × Option (Nat × Nat)) :=
  searchFromAux (s.length + 1) re s 0

/-- `re.finditer`: non-overlapping leftmost matches (all source patterns
consume at least one character, so the `a + 1` fallback is never taken). -/
def finditerAux : Nat → Re → Str → Nat → List (Nat × Nat × Option (Nat × Nat))
  | 0, _, _, _ => []
  | Nat.succ f, re, s, i =>
    match searchFromAux (s.length + 1) re s i with
    | none => []
    | some (a, b, c) =>
      (a, b, c) :: finditerAux f re s (if a < b then b else a + 1)

def finditer (re : Re) (s : Str) : List (Nat × Nat × Option (Nat × Nat)) :=
  finditerAux (s.length + 1) re s 0

/-- The text of group 1 of a match (group 0 when the pattern has no group). -/
def capSlice (s : Str) (a b : Nat) : Option (Nat × Nat) → Str
  | some (x, y) => sliceL s x y
  | none => sliceL s a b

/-- `re.findall` for a single-group pattern. -/
def findallG1 (re : Re) (s : Str) : List Str :=
  (finditer re s).map (fun m => capSlice s m.1 m.2.1 m.2.2)

/-- First-match-wins cascade: `re.search` each pattern in order and return
the first match's group 1 (the shared shape of the source's extractors). -/
def tryPatternsG1 : List Re → Str → Option Str
  | [], _ => none
  | p :: ps, s =>
    match reSearch p s with
    | some (a, b, c) => some (capSlice s a b c)
    | none => tryPatternsG1 ps s

/-- `re.sub(pattern, '', s)`: delete the non-overlapping matches. -/
def cutSpans (s : Str) : List (Nat × Nat) → Nat → Str
  | [], k => sliceL s k s.length
  | (a, b) :: rest, k => sliceL s k a ++ cutSpans s rest b

def gsubDelete (re : Re) (s : Str) : Str :=
  cutSpans s ((finditer re s).map (fun m => (m.1, m.2.1))) 0

/-! ## Pattern vocabulary -/

def L (s : String) : Re := Re.lit (S s)

/-- `.` under `re.DOTALL`. -/
def anyCh : Re := Re.cls (fun _ => true)

def wsp : Re := Re.cls isPySpace

def wsPlus : Re := Re.seq wsp (Re.starG wsp)

def wsStar : Re := Re.starG wsp

def digitC : Re := Re.cls Char.isDigit

def plusG (r : Re) : Re := Re.seq r (Re.starG r)

/-- Ordered alternation `(?:a|b|…)`. -/
def alts : List Re → Re
  | [] => Re.lit []
  | [r] => r
  | r :: rest => Re.alt r (alts rest)

def seqs : List Re → Re
  | [] => Re.lit []
  | [r] => r
  | r :: rest => Re.seq r (seqs rest)

/-! ## LocationMatcher

`LocationMatcher.__init__` of `typhoon_extraction_improved.py` /
`typhoon_extraction_ml.py` (identical there) builds `location_dict` from the
consolidated-locations rows, keeping per lowercased name the first row of
maximal priority; `find_island_group` is the lookup.  The rows themselves are
runtime CSV data, so they are universally quantified below. -/

structure LocationRow where
  location_name : Str
  location_type : String
  island_group : String
deriving DecidableEq

/-- `self.priority = {'Province': 5, 'Region': 4, 'City': 3, 'Municipality': 2,
'Barangay': 1}` accessed with `.get(row['location_type'], 0)`. -/
def priorityOf (t : String) : Nat :=
  if t = "Province" then 5
  else if t = "Region" then 4
  else if t = "City" then 3
  else if t = "Municipality" then 2
  else if t = "Barangay" then 1
  else 0

/-- One iteration of the first-pass grouping loop: insert an unseen name, or
replace it when the new row's priority is strictly higher. -/
def addRow (g : List (Str × Nat × String)) (r : LocationRow) : List (Str × Nat × String) :=
  let k := pyLower r.location_name
  let p := priorityOf r.location_type
  match alookup g k with
  | none => aset g k (p, r.island_group)
  | some pg => if p > pg.1 then aset g k (p, r.island_group) else g

def buildGrouped (rows : List LocationRow) : List (Str × Nat × String) :=
  rows.foldl addRow []

/-- `self.location_dict`: lowercased name to island group. -/
def location_dict (rows : List LocationRow) : List (Str × String) :=
  (buildGrouped rows).map (fun e => (e.1, e.2.2))

/-- `LocationMatcher.REGION_MAPPING` (insertion order of the source dict). -/
def REGION_MAPPING : List (Str × String) :=
  [(S "Ilocos Region", "Luzon"), (S "Cagayan Valley", "Luzon"),
   (S "Central Luzon", "Luzon"), (S "CALABARZON", "Luzon"),
   (S "MIMAROPA", "Luzon"), (S "Bicol Region", "Luzon"),
   (S "Western Visayas", "Visayas"), (S "Central Visayas", "Visayas"),
   (S "Eastern Visayas", "Visayas"), (S "Zamboanga Peninsula", "Mindanao"),
   (S "Northern Mindanao", "Mindanao"), (S "Davao Region", "Mindanao"),
   (S "SOCCSKSARGEN", "Mindanao"), (S "Caraga", "Mindanao"),
   (S "Bangsamoro", "Mindanao"), (S "BARMM", "Mindanao"),
   (S "National Capital Region", "Luzon"), (S "NCR", "Luzon"),
   (S "Cordillera Administrative Region", "Luzon"), (S "CAR", "Luzon")]

/-- The partial-match scan of `find_island_group` (improved / ml variants):
return the group of the first dict entry that contains, or is contained in,
the searched name. -/
def firstPartialMatch : List (Str × String) → Str → Option String
  | [], _ => none
  | (k, g) :: t, nl =>
    if occursB nl k || occursB k nl then some g else firstPartialMatch t nl

/-- The `REGION_MAPPING` scan: per entry, first the exact lowercased
comparison, then the two-way substring check. -/
def regionLoop : List (Str × String) → Str → Option String
  | [], _ => none
  | (rn, g) :: t, nl =>
    if pyLower rn = nl then some g
    else if occursB (pyLower rn) nl || occursB nl (pyLower rn) then some g
    else regionLoop t nl

/-- `LocationMatcher.find_island_group` of `typhoon_extraction_improved.py`
(lines 69–89; identical in `typhoon_extraction_ml.py` 76–101). -/
def find_island_group (ldict : List (Str × String)) (name : Str) : Option String :=
  if name = [] then none
  else
    match alookup ldict (pyStrip (pyLower name)) with
    | some g => some g
    | none =>
      match firstPartialMatch ldict (pyStrip (pyLower name)) with
      | some g => some g
      | none => regionLoop REGION_MAPPING (pyStrip (pyLower name))

/-- One step of the longest-match fold of `find_island_group` in
`typhoon_extraction_ml_v2.py` (accumulator `(best_match, best_match_len)`,
strict `>` so ties keep the earlier entry). -/
def v2step (nl : Str) (acc : Option String × Nat) (e : Str × String) : Option String × Nat :=
  if occursB nl e.1 ∧ acc.2 < e.1.length then (some e.2, e.1.length)
  else if occursB e.1 nl ∧ acc.2 < e.1.length then (some e.2, e.1.length)
  else acc

/-- `LocationMatcher.find_island_group` of `typhoon_extraction_ml_v2.py`
(lines 49–73): exact match, else the longest two-way substring match. -/
def find_island_group_v2 (ldict : List (Str × String)) (name : Str) : Option String :=
  if name = [] then none
  else
    match alookup ldict (pyStrip (pyLower name)) with
    | some g => some g
    | none => (ldict.foldl (v2step (pyStrip (pyLower name))) (none, 0)).1

/-! ## DateTimeExtractor.normalize_datetime

The call `pd.to_datetime(...).strftime(...)` is a pandas (external-library)
call; it is abstracted as a `parse` argument returning `none` when pandas
raises. -/

/-- `normalize_datetime` of `typhoon_extraction_improved.py` 114–124 and
`typhoon_extraction_ml.py` 236–247: empty input gives `None`, a parse
failure returns the raw string unchanged. -/
def normalize_datetime (parse : Str → Option Str) (s : Str) : Option Str :=
  if s = [] then none
  else
    match parse s with
    | some d => some d
    | none => some s

/-- `normalize_datetime` of `typhoon_extraction_ml_v2.py` 123–133: a parse
failure returns `None`. -/
def normalize_datetime_v2 (parse : Str → Option Str) (s : Str) : Option Str :=
  if s = [] then none
  else
    match parse s with
    | some d => some d
    | none => none

/-! ## SignalWarningExtractor (`typhoon_extraction_improved.py` 201–379) -/

/-- `tropical\s+cyclone\s+wind\s+signals\s+in\s+effect(.*?)(?:hazard|rainfall|$)` -/
def secP1 : Re :=
  seqs [L "tropical", wsPlus, L "cyclone", wsPlus, L "wind", wsPlus, L "signals",
        wsPlus, L "in", wsPlus, L "effect", Re.grp (Re.starL anyCh),
        alts [L "hazard", L "rainfall", Re.eos]]

/-- `wind\s+signals?(.*?)(?:hazard|rainfall|$)` -/
def secP2 : Re :=
  seqs [L "wind", wsPlus, L "signal", Re.opt (L "s"), Re.grp (Re.starL anyCh),
        alts [L "hazard", L "rainfall", Re.eos]]

/-- `tcws(.*?)(?:hazard|rainfall|$)` -/
def secP3 : Re :=
  seqs [L "tcws", Re.grp (Re.starL anyCh), alts [L "hazard", L "rainfall", Re.eos]]

def section_patterns : List Re := [secP1, secP2, secP3]

/-- `_extract_signal_section`: first pattern's group 1. -/
def extract_signal_section (text : Str) : Option Str :=
  tryPatternsG1 section_patterns text

/-- `(?:signal|tcws|no\.)\s*[#]?(\d)(?:\s|[:\-])` -/
def spP1 : Re :=
  seqs [alts [L "signal", L "tcws", L "no."], wsStar, Re.opt (L "#"),
        Re.grp digitC, alts [wsp, Re.cls (fun c => c = ':' || c = '-')]]

/-- `\*?\*?(\d)\*?\*?\s*(?:\||â€”)` -/
def spP2 : Re :=
  seqs [Re.opt (L "*"), Re.opt (L "*"), Re.grp digitC, Re.opt (L "*"),
        Re.opt (L "*"), wsStar, alts [L "|", L "â€”"]]

/-- `tcws\s*(\d)\s*[:\-]` -/
def spP3 : Re :=
  seqs [L "tcws", wsStar, Re.grp digitC, wsStar, Re.cls (fun c => c = ':' || c = '-')]

def signal_patterns : List Re := [spP1, spP2, spP3]

/-- The `signal_mentions` loop of `_parse_signal_table`: for each pattern, in
order, record the start of the first match of each signal number 1–5 not
seen before (Python `dict` insertion keeps the first position). -/
def signalMentions (table_text : Str) : List (Nat × Nat) :=
  signal_patterns.foldl (fun ms p =>
    (finditer p table_text).foldl (fun ms m =>
      let num := natOfDigits (capSlice table_text m.1 m.2.1 m.2.2)
      if 1 ≤ num ∧ num ≤ 5 ∧ ¬ amem ms num then ms ++ [(num, m.1)]
      else ms) ms) []

/-- `next_signal_pos`: the least recorded position among strictly higher
signal numbers, defaulting to `len(table_text)`. -/
def minHigher (ms : List (Nat × Nat)) (num : Nat) (len : Nat) : Nat :=
  ms.foldl (fun acc e => if e.1 > num ∧ e.2 < acc then e.2 else acc) len

/-- `(?:signal|tcws)[^0-9]*?(\d)` -/
def hsP1 : Re :=
  seqs [alts [L "signal", L "tcws"], Re.starL (Re.cls (fun c => !c.isDigit)),
        Re.grp digitC]

/-- `signal\s+(?:no\.?\s+)?(\d)` -/
def hsP2 : Re :=
  seqs [L "signal", wsPlus, Re.opt (seqs [L "no", Re.opt (L "."), wsPlus]),
        Re.grp digitC]

/-- `tcws\s+(\d)` -/
def hsP3 : Re := seqs [L "tcws", wsPlus, Re.grp digitC]

/-- `_identify_highest_signal`: max digit in 1–5 over all three patterns. -/
def identify_highest_signal (text : Str) : Option Nat :=
  [hsP1, hsP2, hsP3].foldl (fun h p =>
    (findallG1 p text).foldl (fun h ds =>
      let n := natOfDigits ds
      if 0 < n ∧ n ≤ 5 then
        match h with
        | none => some n
        | some m => if n > m then some n else some m
      else h) h) none

def notCommaNl (c : Char) : Bool := !(c = ',' || c = '\n')

/-- `(?:NAME|over\s+NAME)[\s:\-]*([^,\n]*(?:,[^,\n]*)*)` -/
def locPat (name : String) : Re :=
  seqs [alts [L name, seqs [L "over", wsPlus, L name]],
        Re.starG (Re.cls (fun c => isPySpace c || c = ':' || c = '-')),
        Re.grp (Re.seq (Re.starG (Re.cls notCommaNl))
          (Re.starG (Re.seq (L ",") (Re.starG (Re.cls notCommaNl)))))]

/-- `NAME\s+([^\n{\|]*?)(?:visayas|mindanao|luzon|hazard|rainfall|wind|$)` -/
def fbPat (name : String) : Re :=
  seqs [L name, wsPlus,
        Re.grp (Re.starL (Re.cls (fun c => !(c = '\n' || c = '{' || c = '|')))),
        alts [L "visayas", L "mindanao", L "luzon", L "hazard", L "rainfall",
              L "wind", Re.eos]]

/-- `[loc.strip() for loc in match.split(',') if loc.strip()]` -/
def splitCommaStrip (m : Str) : List Str :=
  (splitChars (fun c => c = ',') m).foldr (fun part acc =>
    let p := pyStrip part
    if p = [] then acc else p :: acc) []

/-- `re.sub(r'\([^)]*\)', '', text)`: drop the characters from an opening
parenthesis through the next closing one, if any. -/
def findClose (s : Str) : Option Str :=
  match s.dropWhile (fun c => !(c = ')')) with
  | [] => none
  | _ :: r => some r

def stripParensAux : Nat → Str → Str
  | 0, s => s
  | _, [] => []
  | Nat.succ f, c :: rest =>
    if c = '(' then
      match findClose rest with
      | some rest2 => stripParensAux f rest2
      | none => c :: stripParensAux f rest
    else c :: stripParensAux f rest

def stripParens (s : Str) : Str := stripParensAux (s.length + 1) s

/-- `_parse_locations_from_text`: drop parentheticals, split on `[,;]`,
strip, keep parts longer than two characters. -/
def parse_locations_from_text (text : Str) : List Str :=
  (splitChars (fun c => c = ',' || c = ';') (stripParens text)).foldr
    (fun part acc =>
      let p := pyStrip part
      if 2 < p.length then p :: acc else acc) []

def sigLocPatterns : List (Re × String) :=
  [(locPat "luzon", "Luzon"), (locPat "visayas", "Visayas"),
   (locPat "mindanao", "Mindanao")]

def fbNames : List (String × String) :=
  [("luzon", "Luzon"), ("visayas", "Visayas"), ("mindanao", "Mindanao")]

/-- `_extract_locations_from_section`: findall the per-island patterns over
the lowercased section; if nothing was found, fall back to a search over
`full_text` after each island-group header. -/
def extract_locations_from_section (sect full_text : Str) : List (String × List Str) :=
  let sl := pyLower sect
  let base := [("Luzon", ([] : List Str)), ("Visayas", []), ("Mindanao", []),
               ("Other", [])]
  let res := sigLocPatterns.foldl (fun res pr =>
    (findallG1 pr.1 sl).foldl (fun res m =>
      let locations := splitCommaStrip m
      if locations ≠ [] then
        match alookup res pr.2 with
        | some l => aset res pr.2 (l ++ locations)
        | none => res
      else res) res) base
  if res.all (fun p => p.2.isEmpty) then
    fbNames.foldl (fun res nm =>
      match reSearch (fbPat nm.1) full_text with
      | some (a, b, c) =>
        (parse_locations_from_text (capSlice full_text a b c)).foldl
          (fun res loc =>
            match alookup res nm.2 with
            | some l => if loc ∈ l then res else aset res nm.2 (l ++ [loc])
            | none => res) res
      | none => res) res
  else res

def emptyS : List (Nat × List (String × Str)) :=
  [(1, []), (2, []), (3, []), (4, []), (5, [])]

/-- `result[num][ig] = v` (the outer keys 1–5 always exist). -/
def setNested (res : List (Nat × List (String × Str))) (num : Nat) (ig : String)
    (v : Str) : List (Nat × List (String × Str)) :=
  match alookup res num with
  | some m => aset res num (aset m ig v)
  | none => res

/-- `_parse_signal_table` (lines 246–304): record first marker positions,
then for each detected level slice from its marker start to the least
position of a higher detected level (or the end), and resolve locations in
that window; with no markers, fall back to the single highest signal. -/
def parse_signal_table (table_text full_text : Str) : List (Nat × List (String × Str)) :=
  let ms := signalMentions table_text
  if ms = [] then
    match identify_highest_signal table_text with
    | some hs =>
      (extract_locations_from_section table_text full_text).foldl (fun res p =>
        if p.2 ≠ [] then setNested res hs p.1 (joinSep (S ", ") p.2) else res)
        emptyS
    | none => emptyS
  else
    ([1, 2, 3, 4, 5].filter (fun n => amem ms n)).foldl (fun res num =>
      let st := (alookup ms num).getD 0
      let nxt := minHigher ms num table_text.length
      let content := sliceL table_text st nxt
      (extract_locations_from_section content full_text).foldl (fun res p =>
        if p.2 ≠ [] then setNested res num p.1 (joinSep (S ", ") p.2) else res)
        res) emptyS

def NEG1 : Str := S "no tropical cyclone wind signal"

def NEG2 : Str := S "no wind signal"

def noSignalCheck (tc : Str) : Bool := occursB NEG1 tc || occursB NEG2 tc

/-- `extract_signals` (lines 207–229): lowercase and collapse whitespace,
return the empty result on the no-signal phrases, else extract the section
(empty/missing section also gives the empty result) and parse it. -/
def extract_signals (text : Str) : List (Nat × List (String × Str)) :=
  if noSignalCheck (cleanText (pyLower text)) then emptyS
  else
    match extract_signal_section (cleanText (pyLower text)) with
    | none => emptyS
    | some sec => if sec = [] then emptyS else parse_signal_table sec text

/-! ## Field extractors -/

def fourNone : List (String × Option Str) :=
  [("Luzon", none), ("Visayas", none), ("Mindanao", none), ("Other", none)]

/-- `_build_island_group_dict_from_warnings` (improved 627–642, ml 516–535):
start from the four-key all-`None` map and copy over the groups recorded for
`level`, ignoring unknown keys. -/
def build_island_group_dict_from_warnings
    (warnings : List (Nat × List (String × Str))) (level : Nat) :
    List (String × Option Str) :=
  match alookup warnings level with
  | none => fourNone
  | some ld =>
    ld.foldl (fun res p => if amem res p.1 then aset res p.1 (some p.2) else res)
      fourNone

/-- `_build_island_group_dict` of `typhoon_extraction_ml_v2.py` 345–355:
three keys only, joining each non-empty location list with `", "`. -/
def build_island_group_dict_v2 (d : List (String × List Str)) :
    List (String × Option Str) :=
  ["Luzon", "Visayas", "Mindanao"].map (fun ig =>
    match alookup d ig with
    | some (l :: ls) => (ig, some (joinSep (S ", ") (l :: ls)))
    | _ => (ig, none))

/-- `maximum\s+sustained\s+(?:wind)?s?\s+of\s+(\d+)\s*(?:km/h|kph)` -/
def wP1 : Re :=
  seqs [L "maximum", wsPlus, L "sustained", wsPlus, Re.opt (L "wind"),
        Re.opt (L "s"), wsPlus, L "of", wsPlus, Re.grp (plusG digitC), wsStar,
        alts [L "km/h", L "kph"]]

/-- `(?:wind)?s?\s+of\s+(\d+)\s*(?:km/h|kph|km/hr)(?:\s+(?:sustained|wind))?` -/
def wP2 : Re :=
  seqs [Re.opt (L "wind"), Re.opt (L "s"), wsPlus, L "of", wsPlus,
        Re.grp (plusG digitC), wsStar, alts [L "km/h", L "kph", L "km/hr"],
        Re.opt (seqs [wsPlus, alts [L "sustained", L "wind"]])]

/-- `(\d+)\s*(?:km/h|kph|km/hr)(?:\s+(?:sustained|wind|maximum))?` -/
def wP3 : Re :=
  seqs [Re.grp (plusG digitC), wsStar, alts [L "km/h", L "kph", L "km/hr"],
        Re.opt (seqs [wsPlus, alts [L "sustained", L "wind", L "maximum"]])]

def windspeed_patterns : List Re := [wP1, wP2, wP3]

/-- `_extract_typhoon_windspeed` of `typhoon_extraction_improved.py` 610–625. -/
def extract_typhoon_windspeed (text : Str) : Str :=
  match tryPatternsG1 windspeed_patterns (cleanText text) with
  | some d => S "Maximum sustained winds of " ++ d ++ S " km/h near the center"
  | none => S "Wind speed not found"

def notDot (c : Char) : Bool := !(c = '.')

/-- `([^.]*?(?:latitude|longitude|km|miles|east|west|north|south)[^.]*)` -/
def locCue : Re :=
  Re.grp (seqs [Re.starL (Re.cls notDot),
    alts [L "latitude", L "longitude", L "km", L "miles", L "east", L "west",
          L "north", L "south"],
    Re.starG (Re.cls notDot)])

def loP1 : Re := seqs [L "located", wsPlus, locCue]

def loP2 : Re := seqs [L "centered", wsPlus, locCue]

def loP3 : Re := seqs [alts [L "at", L "near"], wsPlus, locCue]

def location_patterns : List Re := [loP1, loP2, loP3]

/-- The pattern loop of `_extract_typhoon_location`: a stripped group-1 match
is returned only when shorter than 200 characters, else the next pattern is
tried. -/
def loLoop : List Re → Str → Str
  | [], _ => S "Location not found"
  | p :: ps, tc =>
    match reSearch p tc with
    | some (a, b, c) =>
      let location := pyStrip (capSlice tc a b c)
      if location.length < 200 then location else loLoop ps tc
    | none => loLoop ps tc

/-- `_extract_typhoon_location` of `typhoon_extraction_improved.py` 570–589. -/
def extract_typhoon_location (text : Str) : Str :=
  loLoop location_patterns (cleanText text)

/-- `(?:will|is expected to|forecast)\s+move\s+([^.]*?(?:northwest|northeast|west|east|north|south)[^.]*)` -/
def moP1 : Re :=
  seqs [alts [L "will", L "is expected to", L "forecast"], wsPlus, L "move",
        wsPlus,
        Re.grp (seqs [Re.starL (Re.cls notDot),
          alts [L "northwest", L "northeast", L "west", L "east", L "north",
                L "south"],
          Re.starG (Re.cls notDot)])]

/-- `on\s+the\s+forecast\s+track[^.]*` -/
def moP2 : Re :=
  seqs [L "on", wsPlus, L "the", wsPlus, L "forecast", wsPlus, L "track",
        Re.starG (Re.cls notDot)]

/-- `(?:will|forecast)[^.]*?(?:westward|northwestward|northward|eastward|southward)[^.]*` -/
def moP3 : Re :=
  seqs [alts [L "will", L "forecast"], Re.starL (Re.cls notDot),
        alts [L "westward", L "northwestward", L "northward", L "eastward",
              L "southward"],
        Re.starG (Re.cls notDot)]

def movement_patterns : List Re := [moP1, moP2, moP3]

/-- The pattern loop of `_extract_typhoon_movement`: the stripped whole match
(group 0) is returned only when shorter than 200 characters. -/
def moLoop : List Re → Str → Str
  | [], _ => S "Movement information not found"
  | p :: ps, tc =>
    match reSearch p tc with
    | some (a, b, _) =>
      let movement := pyStrip (sliceL tc a b)
      if movement.length < 200 then movement else moLoop ps tc
    | none => moLoop ps tc

/-- `_extract_typhoon_movement` of `typhoon_extraction_improved.py` 591–608. -/
def extract_typhoon_movement (text : Str) : Str :=
  moLoop movement_patterns (cleanText text)

/-- `(?:maximum\s+)?(?:sustained\s+)?(?:wind)?s?\s+(?:of\s+)?(\d+)\s*(?:km/h|kph)` -/
def vP1 : Re :=
  seqs [Re.opt (seqs [L "maximum", wsPlus]), Re.opt (seqs [L "sustained", wsPlus]),
        Re.opt (L "wind"), Re.opt (L "s"), wsPlus, Re.opt (seqs [L "of", wsPlus]),
        Re.grp (plusG digitC), wsStar, alts [L "km/h", L "kph"]]

/-- `(\d+)\s*(?:km/h|kph|km/hr)` -/
def vP2 : Re :=
  seqs [Re.grp (plusG digitC), wsStar, alts [L "km/h", L "kph", L "km/hr"]]

/-- `_extract_typhoon_windspeed` of `typhoon_extraction_ml_v2.py` 389–403. -/
def extract_typhoon_windspeed_v2 (text : Str) : Str :=
  match tryPatternsG1 [vP1, vP2] (cleanText text) with
  | some d => d ++ S " km/h"
  | none => S "Wind speed not available"

/-! ## RainfallWarningExtractor -/

/-- `RAINFALL_KEYWORDS` of `typhoon_extraction_ml.py` 356–360. -/
def RAINFALL_KEYWORDS : List (Nat × List Str) :=
  [(1, [S "intense rainfall", S "intense rain", S ">30 mm", S "flash flood",
        S "widespread flooding", S "landslide"]),
   (2, [S "heavy rainfall", S "heavy rain", S "15-30 mm", S "moderate flooding",
        S "landslide risk"]),
   (3, [S "heavy rainfall advisory", S "rainfall advisory", S "7.5-15 mm",
        S "minor flooding", S "waterlogging"])]

def kwHit (l : Nat) (text : Str) : Bool :=
  ((alookup RAINFALL_KEYWORDS l).getD []).any (fun kw => occursB kw text)

/-- `_identify_warning_level` of `typhoon_extraction_ml.py` 409–417 (and,
with its own keyword table, `typhoon_extraction_ml_v2.py` 283–291): iterate
`range(3, 0, -1)` and return the first level with a keyword in the text. -/
def identify_warning_level (text : Str) : Option Nat :=
  if kwHit 3 text then some 3
  else if kwHit 2 text then some 2
  else if kwHit 1 text then some 1
  else none

/-- `level_keywords` of `_identify_rainfall_levels`
(`typhoon_extraction_improved.py` 442–446). -/
def level_keywords : List (Nat × List Str) :=
  [(1, [S "intense", S "extremely heavy", S ">30", S "flash flood"]),
   (2, [S "heavy", S "15-30", S "moderate flooding"]),
   (3, [S "moderate", S "light to moderate", S "7.5-15", S "advisory"])]

/-- A keyword interpolated into an f-string pattern: its `.` is the regex
any-character, everything else is literal. -/
def compileKw : Str → Re
  | [] => Re.lit []
  | c :: cs => Re.seq (if c = '.' then anyCh else Re.lit [c]) (compileKw cs)

/-- `(?:intense|extremely heavy|heavy|moderate|light to moderate|advisory|$)` -/
def kwTail : Re :=
  alts [L "intense", L "extremely heavy", L "heavy", L "moderate",
        L "light to moderate", L "advisory", Re.eos]

/-- `f'{keyword}.*?(?:…|$)'` -/
def kwContentRe (kw : Str) : Re := seqs [compileKw kw, Re.starL anyCh, kwTail]

/-- The keyword loop of `_identify_rainfall_levels`: for each level keyword
found as a substring, store that keyword's whole-match content under its
level (later keywords of a level overwrite earlier ones). -/
def identifyLevelsLoop (text : Str) : List (Nat × Str) :=
  level_keywords.foldl (fun res lk =>
    lk.2.foldl (fun res kw =>
      if occursB kw text then
        match reSearch (kwContentRe kw) text with
        | some (a, b, _) => aset res lk.1 (sliceL text a b)
        | none => res
      else res) res) []

/-- `_identify_rainfall_levels` (`typhoon_extraction_improved.py` 433–463):
the keyword loop; if nothing was stored, any mention of rain defaults to
level 2 with the entire text as content. -/
def identify_rainfall_levels (text : Str) : List (Nat × Str) :=
  if identifyLevelsLoop text = [] then
    if occursB (S "rainfall") text || occursB (S "rain") text then [(2, text)]
    else []
  else identifyLevelsLoop text

/-- `over\s+([^.;]*)` (and the `across`/`affecting` variants). -/
def overP (w : String) : Re :=
  seqs [L w, wsPlus, Re.grp (Re.starG (Re.cls (fun c => !(c = '.' || c = ';'))))]

def over_patterns : List Re := [overP "over", overP "across", overP "affecting"]

/-- The `location_text` accumulation of
`_extract_locations_from_rainfall_section`: join each pattern's findall
results with spaces, appending a space per pattern; an all-whitespace result
falls back to the whole section. -/
def rainfallLocationText (sect : Str) : Str :=
  let sl := pyLower sect
  let lt := over_patterns.foldl
    (fun lt p => lt ++ joinSep (S " ") (findallG1 p sl) ++ [' ']) []
  if pyStrip lt = [] then sect else lt

/-- `(?:and|or|including|islands?|province|region|the|rest|of|portion|northern|southern|eastern|western|central)\s+` -/
def stopRe : Re :=
  seqs [alts [L "and", L "or", L "including", seqs [L "island", Re.opt (L "s")],
              L "province", L "region", L "the", L "rest", L "of", L "portion",
              L "northern", L "southern", L "eastern", L "western", L "central"],
        wsPlus]

/-- `_parse_rainfall_locations` (`typhoon_extraction_improved.py` 501–520). -/
def parse_rainfall_locations (text : Str) : List Str :=
  (splitChars (fun c => c = ',' || c = ';') (stripParens text)).foldr
    (fun part acc =>
      let p := pyStrip (gsubDelete stopRe (pyStrip part))
      if 2 < p.length then p :: acc else acc) []

def rainfall4 : List (String × List Str) :=
  [("Luzon", []), ("Visayas", []), ("Mindanao", []), ("Other", [])]

/-- `result[k].append(loc)` guarded by the membership test; a key outside the
four buckets is Python's `KeyError`. -/
def bucketAdd (res : List (String × List Str)) (k : String) (loc : Str) :
    Except String (List (String × List Str)) :=
  match alookup res k with
  | some l => Except.ok (if loc ∈ l then res else aset res k (l ++ [loc]))
  | none => Except.error "KeyError"

/-- The bucket chosen for a token: its island group when `find_island_group`
returns a truthy string, else `Other` (Python's `if island_group:` treats
the empty string like `None`). -/
def destFor (ldict : List (Str × String)) (loc : Str) : String :=
  match find_island_group ldict loc with
  | some g => if g = "" then "Other" else g
  | none => "Other"

def categorizeRainfall (ldict : List (Str × String)) :
    List Str → List (String × List Str) → Except String (List (String × List Str))
  | [], res => Except.ok res
  | loc :: rest, res =>
    match bucketAdd res (destFor ldict loc) loc with
    | Except.ok res2 => categorizeRainfall ldict rest res2
    | Except.error e => Except.error e

/-- `_extract_locations_from_rainfall_section`
(`typhoon_extraction_improved.py` 465–499); the `full_text` parameter is
unused there too.  The final comprehension keeps only non-empty buckets. -/
def extract_locations_from_rainfall_section (ldict : List (Str × String))
    (sect full_text : Str) : Except String (List (String × List Str)) :=
  match categorizeRainfall ldict
      (parse_rainfall_locations (rainfallLocationText sect)) rainfall4 with
  | Except.ok res => Except.ok (res.filter (fun p => !p.2.isEmpty))
  | Except.error e => Except.error e

/-! ## Specification-side helper definitions and concrete inputs -/

/-- The effect of one row on the grouped entry of a fixed lowercased name
`n`: first row in, later rows only on strictly higher priority.  This is the
per-name view of `addRow` used to state the deduplication property. -/
def bestStep (n : Str) (cur : Option (Nat × String)) (r : LocationRow) :
    Option (Nat × String) :=
  if pyLower r.location_name = n then
    match cur with
    | none => some (priorityOf r.location_type, r.island_group)
    | some pg =>
      if priorityOf r.location_type > pg.1 then
        some (priorityOf r.location_type, r.island_group)
      else some pg
  else cur

/-- Bucket `k` of a resolution result contains token `t`. -/
def bucketHas (res : List (String × List Str)) (k : String) (t : Str) : Prop :=
  ∃ l, alookup res k = some l ∧ t ∈ l

/-- The gazetteer pair of the spec's priority example: a Municipality
`Pilar` in the Visayas and a Province `Pilar` in Luzon. -/
def pilarRows : List LocationRow :=
  [⟨S "Pilar", "Municipality", "Visayas"⟩, ⟨S "Pilar", "Province", "Luzon"⟩]

/-- A gazetteer in which the input `cebu` has two partial matches, the
longer one appearing second. -/
def cebuDict : List (Str × String) :=
  [(S "cebu city", "Visayas"), (S "cebuano lands corridor", "Luzon")]

/-- The signal section text of the spec's level-windowing example. -/
def exSec : Str := S "Signal No. 1 Luzon: Ilocos Norte Signal No. 2 Luzon: Cagayan"

/-- The windowing example embedded in a bulletin whose signal section is
found by the `wind\s+signals?` fallback pattern. -/
def exBulletin : Str :=
  S "WIND SIGNALS Signal No. 1 Luzon: Ilocos Norte Signal No. 2 Luzon: Cagayan"

/-- A bulletin whose extracted wind-signal section contains the no-signal
phrase. -/
def negText : Str :=
  S "tropical cyclone wind signals in effect no tropical cyclone wind signal is raised hazard"

/-- The section `extract_signal_section` extracts from `negText`. -/
def negSec : Str := S " no tropical cyclone wind signal is raised "

/-- A concrete signal-warnings value for the builder. -/
def exWarnings : List (Nat × List (String × Str)) := [(1, [("Luzon", S "manila")])]

/-- A rainfall section containing a token unknown to the gazetteer. -/
def unknownSec : Str := S "heavy rainfall over zzunknownia, cebu"

/-- A tiny gazetteer resolving only `cebu`. -/
def tinyDict : List (Str × String) := [(S "cebu", "Visayas")]

/-- A gazetteer row carrying the island group `Unknown`, as
`consolidate_locations_v2.py` emits for region codes absent from its
mapping. -/
def unknownGroupDict : List (Str × String) := [(S "weird", "Unknown")]

/-- A rainfall section whose first token resolves to the `Unknown` group
and whose second token is unresolvable. -/
def unknownGroupSec : Str := S "heavy rainfall over weirdplace, zzunknownia"

/-! ## Library lemmas about the string and association-list primitives -/

theorem isPrefixB_iff (n h : Str) : isPrefixB n h = true ↔ n <+: h := by
  induction n generalizing h with
  | nil => simp [isPrefixB]
  | cons a as ih =>
    cases h with
    | nil => simp [isPrefixB, List.prefix_nil]
    | cons b bs => simp [isPrefixB, List.cons_prefix_cons, ih]

theorem occursB_iff (n h : Str) : occursB n h = true ↔ n <:+: h := by
  induction h with
  | nil =>
    simp [occursB, List.infix_nil, List.isEmpty_iff]
  | cons c rest ih =>
    rw [occursB, List.infix_cons_iff]
    simp [isPrefixB_iff, ih]

theorem sliceL_infix (s : Str) (a b : Nat) : sliceL s a b <:+: s :=
  ⟨s.take a, (s.drop a).drop (b - a), by
    rw [sliceL, List.append_assoc, List.take_append_drop, List.take_append_drop]⟩

theorem occursB_mono (n m h : Str) (h1 : occursB n m = true) (h2 : m <:+: h) :
    occursB n h = true :=
  (occursB_iff n h).2 (((occursB_iff n m).1 h1).trans h2)

theorem capSlice_infix (s : Str) (a b : Nat) (c : Option (Nat × Nat)) :
    capSlice s a b c <:+: s := by
  cases c with
  | none => exact sliceL_infix s a b
  | some xy => exact sliceL_infix s xy.1 xy.2

theorem tryPatternsG1_infix (ps : List Re) (s r : Str)
    (h : tryPatternsG1 ps s = some r) : r <:+: s := by
  induction ps with
  | nil => simp [tryPatternsG1] at h
  | cons p ps ih =>
    rw [tryPatternsG1] at h
    cases hs : reSearch p s with
    | none => rw [hs] at h; exact ih h
    | some m =>
      rw [hs] at h
      obtain ⟨a, b, c⟩ := m
      simp only [Option.some.injEq] at h
      subst h
      exact capSlice_infix s a b c

theorem alookup_aset_self {α β : Type} [DecidableEq α] (l : List (α × β)) (k : α) (v : β) :
    alookup (aset l k v) k = some v := by
  induction l with
  | nil => simp [aset, alookup]
  | cons e t ih =>
    obtain ⟨a, b⟩ := e
    by_cases hak : a = k
    · subst hak; simp [aset, alookup]
    · simp [aset, alookup, hak, ih]

theorem alookup_aset_ne {α β : Type} [DecidableEq α] (l : List (α × β)) (k n : α) (v : β)
    (hkn : k ≠ n) : alookup (aset l k v) n = alookup l n := by
  induction l with
  | nil => simp [aset, alookup, hkn]
  | cons e t ih =>
    obtain ⟨a, b⟩ := e
    by_cases hak : a = k
    · subst hak; simp [aset, alookup, hkn]
    · simp [aset, alookup, hak, ih]

theorem alookup_mem {α β : Type} [DecidableEq α] (l : List (α × β)) (k : α) (v : β)
    (h : alookup l k = some v) : (k, v) ∈ l := by
  induction l with
  | nil => simp [alookup] at h
  | cons e t ih =>
    obtain ⟨a, b⟩ := e
    by_cases hak : a = k
    · subst hak
      simp [alookup] at h
      subst h
      exact List.mem_cons_self _ _
    · rw [alookup, if_neg hak] at h
      exact List.mem_cons_of_mem _ (ih h)

theorem alookup_isSome_of_key (res : List (String × List Str)) (k : String)
    (hk : k ∈ res.map Prod.fst) : ∃ l, alookup res k = some l := by
  induction res with
  | nil => simp at hk
  | cons e t ih =>
    obtain ⟨a, b⟩ := e
    by_cases hak : a = k
    · subst hak; exact ⟨b, by simp [alookup]⟩
    · have hk' : k ∈ t.map Prod.fst := by
        rw [List.map_cons, List.mem_cons] at hk
        rcases hk with h1 | h1
        · exact absurd h1.symm hak
        · exact h1
      obtain ⟨l, hl⟩ := ih hk'
      exact ⟨l, by simp [alookup, hak, hl]⟩

theorem alookup_filter (res : List (String × List Str)) (p : String × List Str → Bool)
    (k : String) (l : List Str) (h : alookup res k = some l) (hp : p (k, l) = true) :
    alookup (res.filter p) k = some l := by
  induction res with
  | nil => simp [alookup] at h
  | cons e t ih =>
    obtain ⟨a, b⟩ := e
    by_cases hak : a = k
    · subst hak
      rw [alookup, if_pos rfl] at h
      obtain rfl : b = l := by injection h
      rw [List.filter_cons, if_pos hp]
      simp [alookup]
    · rw [alookup, if_neg hak] at h
      rw [List.filter_cons]
      by_cases hpb : p (a, b) = true
      · rw [if_pos hpb, alookup, if_neg hak]
        exact ih h
      · simp only [hpb, if_false, Bool.false_eq_true, ite_false]
        exact ih h

/-! ## Gazetteer build lemmas (claim C1) -/

theorem addRow_bestStep (g : List (Str × Nat × String)) (r : LocationRow) (n : Str) :
    alookup (addRow g r) n = bestStep n (alookup g n) r := by
  unfold addRow bestStep
  by_cases hk : pyLower r.location_name = n
  · rw [hk]
    cases hg : alookup g n with
    | none => simp [hg, alookup_aset_self]
    | some pg =>
      simp only [hg]
      by_cases hp : priorityOf r.location_type > pg.1
      · simp [hp, alookup_aset_self]
      · simp [hp, hg]
  · cases hg : alookup g (pyLower r.location_name) with
    | none => simp [hg, alookup_aset_ne _ _ _ _ hk, hk]
    | some pg =>
      by_cases hp : priorityOf r.location_type > pg.1
      · simp [hg, hp, alookup_aset_ne _ _ _ _ hk, hk]
      · simp [hg, hp, hk]

theorem build_lookup_gen (rows : List LocationRow) (g : List (Str × Nat × String)) (n : Str) :
    alookup (rows.foldl addRow g) n = rows.foldl (bestStep n) (alookup g n) := by
  induction rows generalizing g with
  | nil => rfl
  | cons r rest ih => rw [List.foldl_cons, List.foldl_cons, ih, addRow_bestStep]

theorem bestStep_skip (n : Str) (c : Option (Nat × String)) (r : LocationRow)
    (h : ¬ pyLower r.location_name = n) : bestStep n c r = c := by
  unfold bestStep
  rw [if_neg h]

theorem bestFold_filter (rows : List LocationRow) (n : Str) (c : Option (Nat × String)) :
    rows.foldl (bestStep n) c
      = (rows.filter (fun r => pyLower r.location_name == n)).foldl (bestStep n) c := by
  induction rows generalizing c with
  | nil => rfl
  | cons r rest ih =>
    rw [List.foldl_cons, List.filter_cons]
    by_cases hk : pyLower r.location_name = n
    · rw [if_pos (by simpa using hk), List.foldl_cons, ih]
    · rw [if_neg (by simpa using hk), bestStep_skip n c r hk, ih]

theorem alookup_location_dict (rows : List LocationRow) (n : Str) :
    alookup (location_dict rows) n = (alookup (buildGrouped rows) n).map (fun pg => pg.2) := by
  unfold location_dict
  generalize buildGrouped rows = l
  induction l with
  | nil => rfl
  | cons e t ih =>
    obtain ⟨a, pg⟩ := e
    by_cases hak : a = n
    · subst hak; simp [alookup]
    · simp [alookup, hak, ih]

/-! ## Claim theorems -/

/-- C1: gazetteer priority deduplication.  When exactly two rows share a
lowercased name and their administrative priorities differ, the built
`location_dict` maps the name to the island group of the higher-priority
row, so `find_island_group` returns that group (the `Pilar` example of the
spec is the witness below). -/
theorem C1_gazetteer_priority (rows : List LocationRow) (name : Str) (r1 r2 : LocationRow)
    (hf : rows.filter (fun r => pyLower r.location_name == pyStrip (pyLower name)) = [r1, r2])
    (hne : priorityOf r1.location_type ≠ priorityOf r2.location_type)
    (hname : name ≠ []) :
    find_island_group (location_dict rows) name
      = some (if priorityOf r1.location_type < priorityOf r2.location_type
              then r2.island_group else r1.island_group) := by
  have hmem1 : r1 ∈ rows.filter (fun r => pyLower r.location_name == pyStrip (pyLower name)) := by
    rw [hf]; exact List.mem_cons_self _ _
  have hmem2 : r2 ∈ rows.filter (fun r => pyLower r.location_name == pyStrip (pyLower name)) := by
    rw [hf]; exact List.mem_cons_of_mem _ (List.mem_cons_self _ _)
  have hn1 : pyLower r1.location_name = pyStrip (pyLower name) := by
    have := (List.mem_filter.1 hmem1).2
    simpa using this
  have hn2 : pyLower r2.location_name = pyStrip (pyLower name) := by
    have := (List.mem_filter.1 hmem2).2
    simpa using this
  have hbuild : alookup (buildGrouped rows) (pyStrip (pyLower name))
      = [r1, r2].foldl (bestStep (pyStrip (pyLower name))) none := by
    rw [buildGrouped, build_lookup_gen, bestFold_filter, hf]
    rfl
  have s1 : bestStep (pyStrip (pyLower name)) none r1
      = some (priorityOf r1.location_type, r1.island_group) := by
    unfold bestStep
    rw [if_pos hn1]
  have s2 : bestStep (pyStrip (pyLower name))
        (some (priorityOf r1.location_type, r1.island_group)) r2
      = if priorityOf r2.location_type > priorityOf r1.location_type
        then some (priorityOf r2.location_type, r2.island_group)
        else some (priorityOf r1.location_type, r1.island_group) := by
    unfold bestStep
    rw [if_pos hn2]
  have hfold : [r1, r2].foldl (bestStep (pyStrip (pyLower name))) none
      = if priorityOf r1.location_type < priorityOf r2.location_type
        then some (priorityOf r2.location_type, r2.island_group)
        else some (priorityOf r1.location_type, r1.island_group) := by
    rw [List.foldl_cons, List.foldl_cons, List.foldl_nil, s1, s2]
  have hdict : alookup (location_dict rows) (pyStrip (pyLower name))
      = some (if priorityOf r1.location_type < priorityOf r2.location_type
              then r2.island_group else r1.island_group) := by
    rw [alookup_location_dict, hbuild, hfold]
    by_cases hp : priorityOf r1.location_type < priorityOf r2.location_type
    · rw [if_pos hp, if_pos hp]; rfl
    · rw [if_neg hp, if_neg hp]; rfl
  unfold find_island_group
  rw [if_neg hname, hdict]

/-- C1 witness: with a Municipality `Pilar` in the Visayas and a Province
`Pilar` in Luzon, `find_island_group` of the built dictionary returns
`Luzon`. -/
theorem C1_witness : find_island_group (location_dict pilarRows) (S "Pilar") = some "Luzon" := by
  have h := C1_gazetteer_priority pilarRows (S "Pilar")
    ⟨S "Pilar", "Municipality", "Visayas"⟩ ⟨S "Pilar", "Province", "Luzon"⟩
    (by decide) (by decide) (by decide)
  rw [h]
  decide

/-- C3 counterexample: a rainfall section containing both the level-1
keyword `intense rainfall` and the level-3 keyword `rainfall advisory` is
classified as level 3 by `_identify_warning_level`, not level 1 as the
claim states. -/
theorem C3_counterexample :
    occursB (S "intense rainfall") (S "intense rainfall and a rainfall advisory") = true ∧
    occursB (S "rainfall advisory") (S "intense rainfall and a rainfall advisory") = true ∧
    identify_warning_level (S "intense rainfall and a rainfall advisory") = some 3 ∧
    ¬ identify_warning_level (S "intense rainfall and a rainfall advisory") = some 1 := by
  decide

/-- C3 amended: `_identify_warning_level` iterates levels in descending
numeric order 3, 2, 1 and returns the first level with a keyword in the
text; hence any text containing a level-3 keyword is classified level 3,
even when keywords of more severe levels also occur. -/
theorem C3_amended (text : Str) (kw : Str)
    (hkw : kw ∈ (alookup RAINFALL_KEYWORDS 3).getD [])
    (hocc : occursB kw text = true) :
    identify_warning_level text = some 3 := by
  have h3 : kwHit 3 text = true := by
    unfold kwHit
    exact List.any_eq_true.2 ⟨kw, hkw, hocc⟩
  unfold identify_warning_level
  rw [if_pos h3]

/-- C3 amended witness at the counterexample text. -/
theorem C3_witness :
    identify_warning_level (S "intense rainfall and a rainfall advisory") = some 3 :=
  C3_amended (S "intense rainfall and a rainfall advisory") (S "rainfall advisory")
    (by decide) (by decide)

/-- C8 counterexample: the `ml_v2` variant of `normalize_datetime` returns
`None` for a non-empty capture whose parse fails, contradicting the claim
that the raw substring is kept and null is never returned. -/
theorem C8_counterexample :
    normalize_datetime_v2 (fun _ => none) (S "not a date") = none ∧
    S "not a date" ≠ [] := by
  constructor
  · rfl
  · decide

/-- C8 amended: the improved / ml variants of `normalize_datetime` behave as
claimed for every parser outcome: a non-empty capture never yields null,
and on parse failure the raw capture is returned unchanged; the `ml_v2`
variant instead returns null on parse failure. -/
theorem C8_amended (parse : Str → Option Str) (s : Str) (hs : s ≠ []) :
    (normalize_datetime parse s).isSome = true ∧
    (parse s = none → normalize_datetime parse s = some s) := by
  unfold normalize_datetime
  rw [if_neg hs]
  cases h : parse s with
  | none => exact ⟨rfl, fun _ => rfl⟩
  | some d => exact ⟨rfl, fun hc => Option.noConfusion hc⟩

/-- C8 witness: a failing parse on a concrete capture keeps the raw string. -/
theorem C8_witness :
    (normalize_datetime (fun _ => none) (S "not a date")).isSome = true ∧
    normalize_datetime (fun _ => none) (S "not a date") = some (S "not a date") := by
  have h := C8_amended (fun _ => none) (S "not a date") (by decide)
  exact ⟨h.1, h.2 rfl⟩

/-- C10: the implicit rainfall default of `_identify_rainfall_levels`.  When
no keyword of any level occurs in the text but `rain` does, the extractor
assigns level 2 with the entire text as that level's content. -/
theorem C10_rainfall_default (text : Str)
    (hno : ∀ p ∈ level_keywords, ∀ kw ∈ p.2, occursB kw text = false)
    (hr : occursB (S "rain") text = true) :
    identify_rainfall_levels text = [(2, text)] := by
  have hA := hno (1, [S "intense", S "extremely heavy", S ">30", S "flash flood"])
    (by simp [level_keywords])
  have hB := hno (2, [S "heavy", S "15-30", S "moderate flooding"])
    (by simp [level_keywords])
  have hC := hno (3, [S "moderate", S "light to moderate", S "7.5-15", S "advisory"])
    (by simp [level_keywords])
  have h1 := hA (S "intense") (by simp)
  have h2 := hA (S "extremely heavy") (by simp)
  have h3 := hA (S ">30") (by simp)
  have h4 := hA (S "flash flood") (by simp)
  have h5 := hB (S "heavy") (by simp)
  have h6 := hB (S "15-30") (by simp)
  have h7 := hB (S "moderate flooding") (by simp)
  have h8 := hC (S "moderate") (by simp)
  have h9 := hC (S "light to moderate") (by simp)
  have h10 := hC (S "7.5-15") (by simp)
  have h11 := hC (S "advisory") (by simp)
  have hloop : identifyLevelsLoop text = [] := by
    unfold identifyLevelsLoop
    simp only [level_keywords, List.foldl_cons, List.foldl_nil, h1, h2, h3, h4, h5,
      h6, h7, h8, h9, h10, h11, Bool.false_eq_true, if_false]
  unfold identify_rainfall_levels
  rw [hloop, if_pos rfl, hr, Bool.or_true, if_pos rfl]

/-- C10 witness: a section mentioning rain with no level keyword. -/
theorem C10_witness : identify_rainfall_levels (S "rain over cebu") = [(2, S "rain over cebu")] := by
  have h := C10_rainfall_default (S "rain over cebu") (by decide) (by decide)
  exact h

/-! ## Builder key-set lemmas (claim C6) -/

theorem aset_keys_of_amem {α β : Type} [DecidableEq α] (l : List (α × β)) (k : α) (v : β)
    (h : amem l k = true) : (aset l k v).map Prod.fst = l.map Prod.fst := by
  induction l with
  | nil => simp [amem, alookup] at h
  | cons e t ih =>
    obtain ⟨a, b⟩ := e
    by_cases hak : a = k
    · subst hak; simp [aset]
    · have h' : amem t k = true := by
        simpa [amem, alookup, hak] using h
      simp [aset, hak, ih h']

theorem buildW_keys (ld : List (String × Str)) (res : List (String × Option Str)) :
    ((ld.foldl (fun res p => if amem res p.1 then aset res p.1 (some p.2) else res) res).map
      Prod.fst) = res.map Prod.fst := by
  induction ld generalizing res with
  | nil => rfl
  | cons p t ih =>
    rw [List.foldl_cons]
    by_cases hm : amem res p.1 = true
    · rw [if_pos hm, ih, aset_keys_of_amem _ _ _ hm]
    · rw [if_neg (by simpa using hm), ih]

/-- C6 amended: the improved / ml builder
`_build_island_group_dict_from_warnings` always produces exactly the four
keys Luzon, Visayas, Mindanao, Other, and a level with no recorded warnings
yields the all-null map; the `ml_v2` builder instead produces only three
keys (no `Other`), which is the counterexample. -/
theorem C6_amended (warnings : List (Nat × List (String × Str))) (level : Nat) :
    (build_island_group_dict_from_warnings warnings level).map Prod.fst
        = ["Luzon", "Visayas", "Mindanao", "Other"] ∧
    ((alookup warnings level = none ∨ alookup warnings level = some []) →
      build_island_group_dict_from_warnings warnings level = fourNone) := by
  constructor
  · unfold build_island_group_dict_from_warnings
    cases h : alookup warnings level with
    | none => rfl
    | some ld => rw [buildW_keys]; rfl
  · intro h
    rcases h with h | h
    · unfold build_island_group_dict_from_warnings
      rw [h]
    · unfold build_island_group_dict_from_warnings
      rw [h]
      rfl

/-- C6 witness: the four-key form and the all-null form at a concrete
warnings value. -/
theorem C6_witness :
    (build_island_group_dict_from_warnings exWarnings 1).map Prod.fst
        = ["Luzon", "Visayas", "Mindanao", "Other"] ∧
    build_island_group_dict_from_warnings exWarnings 2 = fourNone :=
  ⟨(C6_amended exWarnings 1).1, (C6_amended exWarnings 2).2 (Or.inl (by decide))⟩

/-- C6 counterexample: the `ml_v2` builder emits exactly the three keys
Luzon, Visayas, Mindanao — the `Other` key is missing from the assembled
tag map. -/
theorem C6_counterexample :
    (build_island_group_dict_v2 [("Luzon", [S "manila"])]).map Prod.fst
        = ["Luzon", "Visayas", "Mindanao"] ∧
    "Other" ∉ (build_island_group_dict_v2 [("Luzon", [S "manila"])]).map Prod.fst := by
  decide

/-! ## Longest-match fold lemmas (claim C5) -/

theorem v2fold_frozen (nl : Str) (l : List (Str × String)) (acc : Option String × Nat)
    (h : ∀ e ∈ l, (occursB nl e.1 = true ∨ occursB e.1 nl = true) → e.1.length ≤ acc.2) :
    l.foldl (v2step nl) acc = acc := by
  induction l with
  | nil => rfl
  | cons e t ih =>
    have hstep : v2step nl acc e = acc := by
      unfold v2step
      split_ifs with hc1 hc2
      · have := h e (List.mem_cons_self e t) (Or.inl hc1.1)
        have := hc1.2
        omega
      · have := h e (List.mem_cons_self e t) (Or.inr hc2.1)
        have := hc2.2
        omega
      · rfl
    rw [List.foldl_cons, hstep]
    exact ih (fun e2 he2 hm2 => h e2 (List.mem_cons_of_mem _ he2) hm2)

theorem v2fold_longest (nl : Str) (l : List (Str × String)) (k : Str) (g : String) :
    ∀ acc : Option String × Nat,
    (k, g) ∈ l →
    (occursB nl k = true ∨ occursB k nl = true) →
    acc.2 < k.length →
    (∀ e ∈ l, e ≠ (k, g) →
      (occursB nl e.1 = true ∨ occursB e.1 nl = true) → e.1.length < k.length) →
    (l.foldl (v2step nl) acc).1 = some g := by
  induction l with
  | nil =>
    intro acc hmem
    cases hmem
  | cons e t ih =>
    intro acc hmem hmatch hacc hothers
    by_cases he : e = (k, g)
    · subst he
      have hstep : v2step nl acc (k, g) = (some g, k.length) := by
        unfold v2step
        rcases hmatch with h1 | h1
        · rw [if_pos ⟨h1, hacc⟩]
        · by_cases h2 : occursB nl k = true ∧ acc.2 < k.length
          · rw [if_pos h2]
          · rw [if_neg h2, if_pos ⟨h1, hacc⟩]
      rw [List.foldl_cons, hstep]
      have hfr : t.foldl (v2step nl) (some g, k.length) = (some g, k.length) := by
        apply v2fold_frozen
        intro e2 he2 hm2
        by_cases h3 : e2 = (k, g)
        · subst h3
          exact Nat.le_refl _
        · exact Nat.le_of_lt (hothers e2 (List.mem_cons_of_mem _ he2) h3 hm2)
      rw [hfr]
    · have hmem' : (k, g) ∈ t := by
        rcases List.mem_cons.1 hmem with h1 | h1
        · exact absurd h1.symm he
        · exact h1
      have hacc' : (v2step nl acc e).2 < k.length := by
        unfold v2step
        split_ifs with hc1 hc2
        · simpa using hothers e (List.mem_cons_self e t) he (Or.inl hc1.1)
        · simpa using hothers e (List.mem_cons_self e t) he (Or.inr hc2.1)
        · exact hacc
      rw [List.foldl_cons]
      exact ih (v2step nl acc e) hmem' hmatch hacc'
        (fun e2 he2 => hothers e2 (List.mem_cons_of_mem _ he2))

/-- C5 counterexample: in the improved / ml variants of
`find_island_group`, a gazetteer where the input `Cebu` matches the shorter
entry `cebu city` (Visayas) first and the strictly longer entry
`cebuano lands corridor` (Luzon) second returns the group of the first
matching entry, not that of the longest matching known name. -/
theorem C5_counterexample :
    find_island_group cebuDict (S "Cebu") = some "Visayas" ∧
    occursB (pyStrip (pyLower (S "Cebu"))) (S "cebuano lands corridor") = true ∧
    (S "cebu city").length < (S "cebuano lands corridor").length ∧
    find_island_group cebuDict (S "Cebu") ≠ some "Luzon" := by
  decide

/-- C5 amended: the longest-match behaviour holds for the `ml_v2` variant
`find_island_group_v2`: with no exact match, the scan returns the island
group of the strictly longest known name matching the input by substring
(either direction); the improved / ml variants instead return the first
matching entry in insertion order. -/
theorem C5_amended (ldict : List (Str × String)) (name k : Str) (g : String)
    (hname : name ≠ [])
    (hexact : alookup ldict (pyStrip (pyLower name)) = none)
    (hmem : (k, g) ∈ ldict)
    (hmatch : occursB (pyStrip (pyLower name)) k = true ∨
      occursB k (pyStrip (pyLower name)) = true)
    (hk : k ≠ [])
    (hlong : ∀ e ∈ ldict, e ≠ (k, g) →
      (occursB (pyStrip (pyLower name)) e.1 = true ∨
        occursB e.1 (pyStrip (pyLower name)) = true) →
      e.1.length < k.length) :
    find_island_group_v2 ldict name = some g := by
  have hpos : ((none : Option String), 0).2 < k.length := by
    have := List.length_pos.2 hk
    simpa using this
  have hfold := v2fold_longest (pyStrip (pyLower name)) ldict k g (none, 0)
    hmem hmatch hpos hlong
  unfold find_island_group_v2
  rw [if_neg hname, hexact]
  exact hfold

/-- C5 witness: on the same gazetteer, the `ml_v2` lookup returns the group
of the longest matching known name. -/
theorem C5_witness : find_island_group_v2 cebuDict (S "Cebu") = some "Luzon" :=
  C5_amended cebuDict (S "Cebu") (S "cebuano lands corridor") "Luzon"
    (by decide) (by decide) (by decide) (by decide) (by decide) (by decide)

/-- C4: the no-signal invariant.  If the extracted wind-signal section of a
bulletin contains one of the negation phrases, `extract_signals` returns
the empty per-level result, so every one of the five built tag maps is the
four-key all-null map. -/
theorem C4_no_signal_invariant (text sec : Str)
    (hsec : extract_signal_section (cleanText (pyLower text)) = some sec)
    (hneg : occursB NEG1 sec = true ∨ occursB NEG2 sec = true) :
    ∀ l ∈ [1, 2, 3, 4, 5],
      build_island_group_dict_from_warnings (extract_signals text) l = fourNone := by
  have hinf : sec <:+: cleanText (pyLower text) :=
    tryPatternsG1_infix section_patterns (cleanText (pyLower text)) sec hsec
  have hguard : noSignalCheck (cleanText (pyLower text)) = true := by
    unfold noSignalCheck
    rcases hneg with h | h
    · rw [occursB_mono NEG1 sec _ h hinf, Bool.true_or]
    · rw [occursB_mono NEG2 sec _ h hinf, Bool.or_true]
  have hempty : extract_signals text = emptyS := by
    unfold extract_signals
    rw [if_pos hguard]
  intro l hl
  rw [hempty]
  simp only [List.mem_cons, List.not_mem_nil, or_false] at hl
  rcases hl with rfl | rfl | rfl | rfl | rfl <;> rfl

/-- C4 witness: a concrete bulletin whose signal section contains the
negation phrase yields all-null maps at levels 1 and 5. -/
theorem C4_witness :
    build_island_group_dict_from_warnings (extract_signals negText) 1 = fourNone ∧
    build_island_group_dict_from_warnings (extract_signals negText) 5 = fourNone := by
  have h := C4_no_signal_invariant negText negSec (by decide) (Or.inl (by decide))
  exact ⟨h 1 (by decide), h 5 (by decide)⟩

/-- C2 counterexample: on the spec's own windowing example section, the
level-1 window of `_parse_signal_table` starts at the `No. 1` marker match
and ends at the start of the `No. 2` match, so it retains the `Signal`
token of the level-2 header, and locations are matched on the lowercased
section; the resulting tags differ from the claimed `Ilocos Norte` /
`Cagayan` values. -/
theorem C2_counterexample :
    alookup (build_island_group_dict_from_warnings (parse_signal_table exSec exSec) 1) "Luzon"
      = some (some (S "ilocos norte signal")) ∧
    alookup (build_island_group_dict_from_warnings (parse_signal_table exSec exSec) 2) "Luzon"
      = some (some (S "cagayan")) ∧
    (S "ilocos norte signal") ≠ (S "Ilocos Norte") ∧
    (S "cagayan") ≠ (S "Cagayan") := by
  decide

set_option maxRecDepth 8000 in
/-- C2 amended: each detected level's window runs from that level's first
marker-match position (marker text included — here the matches are the
`no. <digit>` tokens) to the least first-match position among higher
detected levels, and location text is taken from the lowercased window; on
the example bulletin this yields `ilocos norte signal` for level 1 and
`cagayan` for level 2, attributed to those levels only. -/
theorem C2_amended :
    alookup (build_island_group_dict_from_warnings (extract_signals exBulletin) 1) "Luzon"
      = some (some (S "ilocos norte signal")) ∧
    alookup (build_island_group_dict_from_warnings (extract_signals exBulletin) 2) "Luzon"
      = some (some (S "cagayan")) := by
  decide

/-- C9 counterexample: the `ml_v2` extractor returns the sentinel
`Wind speed not available`, not `Wind speed not found`, on a text matching
no wind-speed pattern. -/
theorem C9_counterexample :
    extract_typhoon_windspeed_v2 (S "zzz") = S "Wind speed not available" ∧
    extract_typhoon_windspeed_v2 (S "zzz") ≠ S "Wind speed not found" := by
  decide

/-- C9 amended: the improved variant returns exactly the claimed sentinels
(`Wind speed not found`, `Location not found`,
`Movement information not found`) whenever none of the respective ordered
patterns matches; the `ml_v2` variant uses different sentinel strings
(`… not available`). -/
theorem C9_amended (text : Str)
    (h1 : tryPatternsG1 windspeed_patterns (cleanText text) = none)
    (h2 : ∀ p ∈ location_patterns, reSearch p (cleanText text) = none)
    (h3 : ∀ p ∈ movement_patterns, reSearch p (cleanText text) = none) :
    extract_typhoon_windspeed text = S "Wind speed not found" ∧
    extract_typhoon_location text = S "Location not found" ∧
    extract_typhoon_movement text = S "Movement information not found" := by
  refine ⟨?_, ?_, ?_⟩
  · unfold extract_typhoon_windspeed
    rw [h1]
  · have e1 := h2 loP1 (by simp [location_patterns])
    have e2 := h2 loP2 (by simp [location_patterns])
    have e3 := h2 loP3 (by simp [location_patterns])
    unfold extract_typhoon_location location_patterns
    simp only [loLoop, e1, e2, e3]
  · have e1 := h3 moP1 (by simp [movement_patterns])
    have e2 := h3 moP2 (by simp [movement_patterns])
    have e3 := h3 moP3 (by simp [movement_patterns])
    unfold extract_typhoon_movement movement_patterns
    simp only [moLoop, e1, e2, e3]

/-- C9 witness: a text matching none of the improved variant's patterns
yields the three claimed sentinels. -/
theorem C9_witness :
    extract_typhoon_windspeed (S "zzz") = S "Wind speed not found" ∧
    extract_typhoon_location (S "zzz") = S "Location not found" ∧
    extract_typhoon_movement (S "zzz") = S "Movement information not found" :=
  C9_amended (S "zzz") (by decide) (by decide) (by decide)

/-! ## Resolution-range lemmas (claim C7) -/

theorem firstPartialMatch_val (l : List (Str × String)) (nl : Str) (g : String)
    (h : firstPartialMatch l nl = some g) : ∃ k, (k, g) ∈ l := by
  induction l with
  | nil => simp [firstPartialMatch] at h
  | cons e t ih =>
    obtain ⟨k0, g0⟩ := e
    rw [firstPartialMatch] at h
    by_cases hc : (occursB nl k0 || occursB k0 nl) = true
    · rw [if_pos hc] at h
      obtain rfl : g0 = g := by injection h
      exact ⟨k0, List.mem_cons_self _ _⟩
    · rw [if_neg hc] at h
      obtain ⟨k, hk⟩ := ih h
      exact ⟨k, List.mem_cons_of_mem _ hk⟩

theorem regionLoop_val (l : List (Str × String)) (nl : Str) (g : String)
    (h : regionLoop l nl = some g) : ∃ k, (k, g) ∈ l := by
  induction l with
  | nil => simp [regionLoop] at h
  | cons e t ih =>
    obtain ⟨rn, g0⟩ := e
    rw [regionLoop] at h
    by_cases h1 : pyLower rn = nl
    · rw [if_pos h1] at h
      obtain rfl : g0 = g := by injection h
      exact ⟨rn, List.mem_cons_self _ _⟩
    · rw [if_neg h1] at h
      by_cases h2 : (occursB (pyLower rn) nl || occursB nl (pyLower rn)) = true
      · rw [if_pos h2] at h
        obtain rfl : g0 = g := by injection h
        exact ⟨rn, List.mem_cons_self _ _⟩
      · rw [if_neg h2] at h
        obtain ⟨k, hk⟩ := ih h
        exact ⟨k, List.mem_cons_of_mem _ hk⟩

theorem REGION_MAPPING_range :
    ∀ e ∈ REGION_MAPPING, e.2 = "Luzon" ∨ e.2 = "Visayas" ∨ e.2 = "Mindanao" := by
  decide

/-- Any group returned by `find_island_group` is a group of the gazetteer or
of the static region table. -/
theorem find_island_group_range (ldict : List (Str × String)) (name : Str) (g : String)
    (hg : ∀ e ∈ ldict, e.2 = "Luzon" ∨ e.2 = "Visayas" ∨ e.2 = "Mindanao")
    (h : find_island_group ldict name = some g) :
    g = "Luzon" ∨ g = "Visayas" ∨ g = "Mindanao" := by
  unfold find_island_group at h
  by_cases hn : name = []
  · rw [if_pos hn] at h
    cases h
  · rw [if_neg hn] at h
    cases he : alookup ldict (pyStrip (pyLower name)) with
    | some g2 =>
      rw [he] at h
      obtain rfl : g2 = g := by injection h
      exact hg _ (alookup_mem _ _ _ he)
    | none =>
      rw [he] at h
      cases hp : firstPartialMatch ldict (pyStrip (pyLower name)) with
      | some g2 =>
        rw [hp] at h
        obtain rfl : g2 = g := by injection h
        obtain ⟨k, hk⟩ := firstPartialMatch_val _ _ _ hp
        exact hg _ hk
      | none =>
        rw [hp] at h
        obtain ⟨k, hk⟩ := regionLoop_val _ _ _ h
        exact REGION_MAPPING_range _ hk

theorem destFor_key (ldict : List (Str × String)) (loc : Str)
    (hg : ∀ e ∈ ldict, e.2 = "Luzon" ∨ e.2 = "Visayas" ∨ e.2 = "Mindanao") :
    destFor ldict loc ∈ ["Luzon", "Visayas", "Mindanao", "Other"] := by
  unfold destFor
  cases h : find_island_group ldict loc with
  | none => simp
  | some g =>
    show (if g = "" then "Other" else g) ∈ ["Luzon", "Visayas", "Mindanao", "Other"]
    by_cases hge : g = ""
    · rw [if_pos hge]
      simp
    · rw [if_neg hge]
      rcases find_island_group_range ldict loc g hg h with h1 | h1 | h1 <;> simp [h1]

/-- The categorisation loop of the rainfall resolver: with an in-range
gazetteer it never raises, keeps the four buckets, only grows the `Other`
bucket, and puts every token destined for `Other` there. -/
theorem categorize_main (ldict : List (Str × String))
    (hg : ∀ e ∈ ldict, e.2 = "Luzon" ∨ e.2 = "Visayas" ∨ e.2 = "Mindanao") :
    ∀ (locs : List Str) (res : List (String × List Str)),
    res.map Prod.fst = ["Luzon", "Visayas", "Mindanao", "Other"] →
    ∃ res2, categorizeRainfall ldict locs res = Except.ok res2 ∧
      res2.map Prod.fst = ["Luzon", "Visayas", "Mindanao", "Other"] ∧
      (∀ t, bucketHas res "Other" t → bucketHas res2 "Other" t) ∧
      (∀ t, t ∈ locs → destFor ldict t = "Other" → bucketHas res2 "Other" t) := by
  intro locs
  induction locs with
  | nil =>
    intro res hk
    exact ⟨res, rfl, hk, fun t ht => ht, fun t ht => absurd ht (List.not_mem_nil t)⟩
  | cons loc rest ih =>
    intro res hk
    have hkey : destFor ldict loc ∈ res.map Prod.fst := by
      rw [hk]
      exact destFor_key ldict loc hg
    obtain ⟨l, hl⟩ := alookup_isSome_of_key res _ hkey
    have hmeml : amem res (destFor ldict loc) = true := by
      unfold amem
      rw [hl]
      rfl
    have hba : bucketAdd res (destFor ldict loc) loc
        = Except.ok (if loc ∈ l then res else aset res (destFor ldict loc) (l ++ [loc])) := by
      unfold bucketAdd
      rw [hl]
    have hk1 : (if loc ∈ l then res else aset res (destFor ldict loc) (l ++ [loc])).map Prod.fst
        = ["Luzon", "Visayas", "Mindanao", "Other"] := by
      by_cases hin : loc ∈ l
      · rw [if_pos hin]
        exact hk
      · rw [if_neg hin, aset_keys_of_amem _ _ _ hmeml]
        exact hk
    have hmono : ∀ t, bucketHas res "Other" t →
        bucketHas (if loc ∈ l then res else aset res (destFor ldict loc) (l ++ [loc]))
          "Other" t := by
      intro t ht
      obtain ⟨lo, hlo, hto⟩ := ht
      by_cases hin : loc ∈ l
      · rw [if_pos hin]
        exact ⟨lo, hlo, hto⟩
      · rw [if_neg hin]
        by_cases hd : destFor ldict loc = "Other"
        · rw [hd] at hl
          obtain rfl : l = lo := by
            rw [hl] at hlo
            injection hlo
          refine ⟨l ++ [loc], ?_, List.mem_append_left _ hto⟩
          rw [hd]
          exact alookup_aset_self _ _ _
        · exact ⟨lo, by rw [alookup_aset_ne _ _ _ _ hd]; exact hlo, hto⟩
    have hnew : destFor ldict loc = "Other" →
        bucketHas (if loc ∈ l then res else aset res (destFor ldict loc) (l ++ [loc]))
          "Other" loc := by
      intro hd
      by_cases hin : loc ∈ l
      · rw [if_pos hin]
        refine ⟨l, ?_, hin⟩
        rw [← hd]
        exact hl
      · rw [if_neg hin]
        refine ⟨l ++ [loc], ?_, List.mem_append_right _ (List.mem_cons_self _ _)⟩
        rw [← hd]
        exact alookup_aset_self _ _ _
    obtain ⟨res2, hc, hk2, hm2, hnew2⟩ :=
      ih (if loc ∈ l then res else aset res (destFor ldict loc) (l ++ [loc])) hk1
    refine ⟨res2, ?_, hk2, fun t ht => hm2 t (hmono t ht), ?_⟩
    · rw [categorizeRainfall, hba]
      exact hc
    · intro t ht hdest
      rcases List.mem_cons.1 ht with rfl | hmem
      · exact hm2 t (hnew hdest)
      · exact hnew2 t hmem hdest

/-- C7 amended: the unknown bucket, for in-range gazetteers.  For every
gazetteer whose island groups all lie in Luzon / Visayas / Mindanao, every
candidate token produced by the rainfall location parser that
`find_island_group` cannot resolve ends up in the `Other` bucket of the
resolution result, the resolution returns normally (no exception), and the
token is never dropped.  (Without that restriction the property fails: see
the counterexample with an `Unknown`-group row.) -/
theorem C7_unknown_bucket (ldict : List (Str × String)) (sect full_text t : Str)
    (hg : ∀ e ∈ ldict, e.2 = "Luzon" ∨ e.2 = "Visayas" ∨ e.2 = "Mindanao")
    (ht : t ∈ parse_rainfall_locations (rainfallLocationText sect))
    (hunres : find_island_group ldict t = none) :
    ∃ res l, extract_locations_from_rainfall_section ldict sect full_text = Except.ok res ∧
      alookup res "Other" = some l ∧ t ∈ l := by
  have hdest : destFor ldict t = "Other" := by
    unfold destFor
    rw [hunres]
  obtain ⟨res2, hc, hk2, _, hnew⟩ := categorize_main ldict hg
    (parse_rainfall_locations (rainfallLocationText sect)) rainfall4 rfl
  obtain ⟨l2, hl2, htl2⟩ := hnew t ht hdest
  refine ⟨res2.filter (fun p => !p.2.isEmpty), l2, ?_, ?_, htl2⟩
  · unfold extract_locations_from_rainfall_section
    rw [hc]
  · refine alookup_filter res2 _ "Other" l2 hl2 ?_
    have hne : l2 ≠ [] := List.ne_nil_of_mem htl2
    simpa [List.isEmpty_iff] using hne

/-- C7 witness: the token `zzunknownia` of a concrete rainfall section is
unresolvable and lands in the `Other` bucket. -/
theorem C7_witness :
    ∃ res l,
      extract_locations_from_rainfall_section tinyDict unknownSec (S "") = Except.ok res ∧
      alookup res "Other" = some l ∧ S "zzunknownia" ∈ l :=
  C7_unknown_bucket tinyDict unknownSec (S "") (S "zzunknownia")
    (by decide) (by decide) (by decide)

set_option maxRecDepth 8000 in
/-- C7 counterexample: with a gazetteer row whose island group is
`Unknown`, the token `weirdplace` resolves to the truthy string `Unknown`,
`result[island_group]` raises KeyError, and resolution of the whole
section aborts — so the unresolvable candidate token `zzunknownia` is
dropped and resolution does raise, refuting the unconditional claim. -/
theorem C7_counterexample :
    S "zzunknownia" ∈ parse_rainfall_locations (rainfallLocationText unknownGroupSec) ∧
    find_island_group unknownGroupDict (S "zzunknownia") = none ∧
    extract_locations_from_rainfall_section unknownGroupDict unknownGroupSec (S "")
      = Except.error "KeyError" := by
  refine ⟨by decide, by decide, ?_⟩
  rfl

end Pagasa
